import Mathlib

/-!
Shallow embedding of the Cognisphere backend control surface.

The definitions below are translated from `src/backend/app.py` and
`src/backend/auth.py`.  The simulation engine proper
(`simulation.engine.SimulationEngine`) is not part of the repository
sources available here; the few engine behaviours the theorems need are
modelled from the specification and are marked `Modelled from the spec:`
in their doc comments.
-/

namespace Cognisphere

/-- Whether the first character list is an initial segment of the second. -/
def listIsPrefixOf : List Char → List Char → Bool
  | [], _ => true
  | _ :: _, [] => false
  | a :: as, b :: bs => a == b && listIsPrefixOf as bs

/-- Whether `pat` occurs as a contiguous sublist of `s`
(the embedding of Python's substring test `pat in s`). -/
def listHasSub (pat s : List Char) : Bool :=
  match s with
  | [] => listIsPrefixOf pat []
  | _ :: rest => listIsPrefixOf pat s || listHasSub pat rest

/-- Python's `pat in s` substring containment on strings. -/
def strContains (s pat : String) : Bool := listHasSub pat.data s.data

/-- Python's `s.startswith(pat)`. -/
def strStartsWith (s pat : String) : Bool := listIsPrefixOf pat.data s.data

/-- Python's `s.lower()` for the ASCII strings crossing this API boundary. -/
def pyLower (s : String) : String := ⟨s.data.map Char.toLower⟩

/-- Lifecycle states of the simulation engine
(`simulation.engine.SimulationState`; members per spec section 3). -/
inductive SimulationState
  | uninitialized
  | ready
  | running
  | paused
  | stopped
  | error
deriving DecidableEq, Repr

/-- Modelled from the spec: the language-model adapter mode enum
(`adapters.LLMMode`, not under `src/`) is a closed set, `mock` or live. -/
inductive LLMMode
  | mock
  | live
deriving DecidableEq, Repr

/-- Conversion `LLMMode(string)`: strings outside the closed set do not
convert (Python raises `ValueError`). -/
def llmModeOfString : String → Option LLMMode
  | "mock" => some LLMMode.mock
  | "live" => some LLMMode.live
  | _ => none

/-- Modelled from the spec: `simulation.environmental_stimuli.StimulusType`
(not under `src/`) is a closed taxonomy (news, economic, social, ...). -/
inductive StimulusType
  | news
  | economic
  | social
deriving DecidableEq, Repr

/-- Conversion `StimulusType(string)`: strings outside the closed taxonomy
do not convert (Python raises `ValueError`). -/
def stimulusTypeOfString : String → Option StimulusType
  | "news" => some StimulusType.news
  | "economic" => some StimulusType.economic
  | "social" => some StimulusType.social
  | _ => none

/-- The validated simulation configuration (`SimulationConfig` built in
`initialize_simulation`, app.py lines 188-203). -/
structure SimulationConfig where
  num_agents : Int
  seed : Option Int
  max_ticks : Int
  llm_mode : LLMMode
  llm_model : String
  llm_temperature : Rat
  tick_duration_ms : Int
  agents_per_tick : Int
  interactions_per_tick : Int
  memory_backend : String
  vector_backend : String
  snapshot_frequency : Int
  snapshot_directory : String
  stimuli_file : Option String
deriving DecidableEq, Repr

/-- The request body of `/simulation/initialize`
(`SimulationConfigRequest`, app.py lines 34-64).  The float temperature is
embedded as a rational. -/
structure SimulationConfigRequest where
  num_agents : Int
  seed : Option Int
  max_ticks : Int
  llm_mode : String
  llm_model : String
  llm_temperature : Rat
  tick_duration_ms : Int
  agents_per_tick : Int
  interactions_per_tick : Int
  memory_backend : String
  vector_backend : String
  snapshot_frequency : Int
  snapshot_directory : String
  stimuli_file : Option String
deriving DecidableEq, Repr

/-- Numeric and length constraints declared on the pydantic fields of
`SimulationConfigRequest` (app.py lines 35-48). -/
abbrev ConfigBoundsOk (r : SimulationConfigRequest) : Prop :=
  1 ≤ r.num_agents ∧ r.num_agents ≤ 10000 ∧
  0 ≤ r.seed.getD 0 ∧
  1 ≤ r.max_ticks ∧ r.max_ticks ≤ 1000000 ∧
  r.llm_model.length ≤ 100 ∧
  0 ≤ r.llm_temperature ∧ r.llm_temperature ≤ 2 ∧
  1 ≤ r.tick_duration_ms ∧ r.tick_duration_ms ≤ 10000 ∧
  1 ≤ r.agents_per_tick ∧ r.agents_per_tick ≤ 1000 ∧
  1 ≤ r.interactions_per_tick ∧ r.interactions_per_tick ≤ 10000 ∧
  1 ≤ r.snapshot_frequency ∧ r.snapshot_frequency ≤ 1000 ∧
  r.snapshot_directory.length ≤ 200

/-- The `validate_stimuli_file` field validator together with the
`max_length=500` constraint (app.py lines 48 and 58-64): rejection fires
only when the value is truthy, i.e. present and non-empty. -/
def stimuliFileOk (v : Option String) : Bool :=
  match v with
  | none => true
  | some s =>
      decide (s.length ≤ 500) &&
        (decide (s = "") || !(strContains s ".." || strStartsWith s "/"))

/-- The `validate_snapshot_directory` field validator (app.py lines 50-56):
rejects the value when it contains `..` or starts with `/`.  Note that no
backslash check is performed here. -/
def snapshotDirectoryOk (v : String) : Bool :=
  !(strContains v ".." || strStartsWith v "/")

/-- Whole-request pydantic validation of `SimulationConfigRequest`:
field constraints plus the two path field validators. -/
def configRequestValid (r : SimulationConfigRequest) : Bool :=
  decide (ConfigBoundsOk r) && snapshotDirectoryOk r.snapshot_directory &&
    stimuliFileOk r.stimuli_file

/-- The allowed lifecycle actions (app.py line 74). -/
def allowedActions : List String := ["start", "pause", "resume", "stop", "step"]

/-- The `validate_action` field validator of `SimulationControlRequest`
(app.py lines 70-77): case-insensitive membership in the closed action
set, returning the lowercased action. -/
def validate_action (v : String) : Except String String :=
  if allowedActions.contains (pyLower v) then Except.ok (pyLower v)
  else Except.error "Action must be one of: start, pause, resume, stop, step"

/-- The `validate_name` field validator of `SnapshotRequest` together with
its `max_length=100` constraint (app.py lines 81-89): a truthy name
containing `..`, `/` or a backslash is rejected. -/
def validate_name (v : Option String) : Except String (Option String) :=
  match v with
  | none => Except.ok none
  | some s =>
      if 100 < s.length then Except.error "name too long"
      else if s ≠ "" ∧
          (strContains s ".." || strContains s "/" || strContains s "\\") = true then
        Except.error "Invalid snapshot name"
      else Except.ok (some s)

/-- The process-wide engine handle's pointee.  State beyond the lifecycle
state is reduced to the presence flags and counters the endpoints read. -/
structure Engine where
  state : SimulationState
  hasWorld : Bool
  hasScheduler : Bool
  hasStimuliManager : Bool
  tickCount : Nat
  tickHistory : List Nat
  snapshots : List String
  config : SimulationConfig
deriving DecidableEq, Repr

/-- Modelled from the spec: constructing `SimulationEngine(config)`
(engine code not under `src/`) yields a fresh engine that has not yet
built its World or subsystems. -/
def SimulationEngine_new (cfg : SimulationConfig) : Engine :=
  ⟨SimulationState.uninitialized, false, false, false, 0, [], [], cfg⟩

/-- Modelled from the spec: `initialize` builds World and subsystems and
reaches `READY` on success; on failure the state is left at `ERROR`
(spec section 4.1). -/
def engineAfterInitialize (e : Engine) (success : Bool) : Engine :=
  if success then
    { e with state := SimulationState.ready, hasWorld := true,
             hasScheduler := true, hasStimuliManager := true }
  else
    { e with state := SimulationState.error }

/-- Modelled from the spec: `pause_simulation` suspends the tick loop
(`RUNNING` to `PAUSED`, idempotent when already paused); per the open
question in spec section 9 it has no state guard and never raises an
invalid-transition error. -/
def pause_simulation (e : Engine) : Engine :=
  if e.state = SimulationState.running then { e with state := SimulationState.paused }
  else e

/-- Modelled from the spec: `resume_simulation` wakes a paused loop
(`PAUSED` to `RUNNING`, no-op otherwise); no state guard per the open
question in spec section 9. -/
def resume_simulation (e : Engine) : Engine :=
  if e.state = SimulationState.paused then { e with state := SimulationState.running }
  else e

/-- Modelled from the spec: `stop_simulation` signals cancellation and
settles at `STOPPED`; no state guard per the open question in spec
section 9. -/
def stop_simulation (e : Engine) : Engine :=
  { e with state := SimulationState.stopped }

/-- Modelled from the spec: `step_simulation` executes exactly one tick
synchronously and returns to the prior state; no state guard per the open
question in spec section 9. -/
def step_simulation (e : Engine) : Engine :=
  { e with tickCount := e.tickCount + 1 }

/-- Responses an endpoint can produce: a success payload, a pydantic
request-validation rejection (HTTP 422, before the endpoint body runs),
or an `HTTPException`. -/
inductive HttpResponse
  | ok (payload : String)
  | validationRejected (detail : String)
  | httpError (code : Nat) (detail : String)
deriving DecidableEq, Repr

/-- Starlette's rendering `str(HTTPException)` is `"<code>: <detail>"`;
the bare `except Exception` blocks in app.py re-raise any inner
`HTTPException` as a 500 carrying that string. -/
def wrapExc (code : Nat) (detail : String) : HttpResponse :=
  HttpResponse.httpError 500 (toString code ++ ": " ++ detail)

/-- Result of the control endpoint: the response, whether
`asyncio.create_task(run_simulation())` was launched, the engine handle
after the synchronous part of the call, and which engine operation (if
any) was invoked. -/
structure ControlResult where
  response : HttpResponse
  launchedBackgroundTask : Bool
  engineAfter : Option Engine
  invokedEngineOp : Option String
deriving DecidableEq, Repr

/-- The body of `control_simulation` (app.py lines 233-272).  The guard
on `start` requires `READY`; `pause`/`resume`/`stop`/`step` call straight
into the engine with no state guard.  `HTTPException`s raised inside the
`try` block are re-wrapped as 500 by the bare `except Exception`. -/
def control_simulation (engine : Option Engine) (action : String) : ControlResult :=
  match engine with
  | none => ⟨HttpResponse.httpError 400 "Simulation not initialized", false, none, none⟩
  | some e =>
      let a := pyLower action
      if a = "start" then
        if e.state = SimulationState.ready then
          ⟨HttpResponse.ok "started", true, some e, some "run_simulation"⟩
        else
          ⟨wrapExc 400 "Simulation not ready", false, some e, none⟩
      else if a = "pause" then
        ⟨HttpResponse.ok "paused", false, some (pause_simulation e), some "pause_simulation"⟩
      else if a = "resume" then
        ⟨HttpResponse.ok "resumed", false, some (resume_simulation e), some "resume_simulation"⟩
      else if a = "stop" then
        ⟨HttpResponse.ok "stopped", false, some (stop_simulation e), some "stop_simulation"⟩
      else if a = "step" then
        ⟨HttpResponse.ok "stepped", false, some (step_simulation e), some "step_simulation"⟩
      else
        ⟨wrapExc 400 ("Unknown action: " ++ a), false, some e, none⟩

/-- The `/simulation/control` endpoint including request validation:
pydantic runs `validate_action` before the endpoint body, so an invalid
action never reaches `control_simulation`. -/
def controlEndpoint (engine : Option Engine) (rawAction : String) : ControlResult :=
  match validate_action rawAction with
  | Except.error msg => ⟨HttpResponse.validationRejected msg, false, engine, none⟩
  | Except.ok a => control_simulation engine a

/-- Results of the read-only query endpoints: data obtained from the
engine, a well-formed "not available" sentinel body, or an
`HTTPException`. -/
inductive QueryResult
  | payload (tag : String)
  | sentinel (tag : String)
  | httpError (code : Nat) (detail : String)
deriving DecidableEq, Repr

/-- Whether a query result is a "not available" sentinel body. -/
def QueryResult.isSentinel : QueryResult → Bool
  | QueryResult.sentinel _ => true
  | _ => false

/-- `/simulation/status` (app.py lines 275-287): sentinel when no engine,
otherwise the engine's status. -/
def get_simulation_status (engine : Option Engine) : QueryResult :=
  match engine with
  | none => QueryResult.sentinel "not_initialized"
  | some _ => QueryResult.payload "status"

/-- `/agents` (app.py lines 291-303): HTTP 400 when no engine. -/
def get_agents (engine : Option Engine) : QueryResult :=
  match engine with
  | none => QueryResult.httpError 400 "Simulation not initialized"
  | some _ => QueryResult.payload "agents"

/-- `/culture` (app.py lines 323-335): HTTP 400 when no engine. -/
def get_cultural_data (engine : Option Engine) : QueryResult :=
  match engine with
  | none => QueryResult.httpError 400 "Simulation not initialized"
  | some _ => QueryResult.payload "culture"

/-- `/economy` (app.py lines 338-350): HTTP 400 when no engine. -/
def get_economic_data (engine : Option Engine) : QueryResult :=
  match engine with
  | none => QueryResult.httpError 400 "Simulation not initialized"
  | some _ => QueryResult.payload "economy"

/-- `/network` (app.py lines 353-365): HTTP 400 when no engine. -/
def get_network_data (engine : Option Engine) : QueryResult :=
  match engine with
  | none => QueryResult.httpError 400 "Simulation not initialized"
  | some _ => QueryResult.payload "network"

/-- `/world` (app.py lines 368-383): HTTP 400 when no engine; sentinel
body when the engine has no World yet. -/
def get_world_summary (engine : Option Engine) : QueryResult :=
  match engine with
  | none => QueryResult.httpError 400 "Simulation not initialized"
  | some e =>
      if e.hasWorld then QueryResult.payload "world_summary"
      else QueryResult.sentinel "World not initialized"

/-- `/stats/performance` (app.py lines 510-525): HTTP 400 when no engine;
sentinel body when the engine has no scheduler. -/
def get_performance_stats (engine : Option Engine) : QueryResult :=
  match engine with
  | none => QueryResult.httpError 400 "Simulation not initialized"
  | some e =>
      if e.hasScheduler then QueryResult.payload "performance_stats"
      else QueryResult.sentinel "Scheduler not initialized"

/-- `/stats/history` (app.py lines 528-542): HTTP 400 when no engine;
empty history body when the World or its tick history is absent. -/
def get_simulation_history (engine : Option Engine) : QueryResult :=
  match engine with
  | none => QueryResult.httpError 400 "Simulation not initialized"
  | some e =>
      if e.hasWorld && !e.tickHistory.isEmpty then QueryResult.payload "history"
      else QueryResult.sentinel "empty_history"

/-- Result of `/simulation/initialize`: response, the process-wide engine
handle afterwards, and whether a new `SimulationEngine` was constructed. -/
structure InitResult where
  response : HttpResponse
  engineAfter : Option Engine
  constructed : Bool
deriving DecidableEq, Repr

/-- Conversion of a validated request into a `SimulationConfig`
(app.py lines 188-203). -/
def toSimConfig (r : SimulationConfigRequest) (mode : LLMMode) : SimulationConfig :=
  ⟨r.num_agents, r.seed, r.max_ticks, mode, r.llm_model, r.llm_temperature,
   r.tick_duration_ms, r.agents_per_tick, r.interactions_per_tick,
   r.memory_backend, r.vector_backend, r.snapshot_frequency,
   r.snapshot_directory, r.stimuli_file⟩

/-- The `/simulation/initialize` endpoint (app.py lines 168-230).
Pydantic validation runs first; then the LLM mode is checked before any
engine is constructed; then the global handle is assigned the new engine
and `initialize()` runs.  The outcome of the engine's `initialize()` is
the parameter `initOk`.  On failure the handle keeps the new engine. -/
def initialize_simulation (prior : Option Engine) (r : SimulationConfigRequest)
    (initOk : Bool) : InitResult :=
  if configRequestValid r then
    match llmModeOfString r.llm_mode with
    | none =>
        ⟨HttpResponse.httpError 400 ("Invalid LLM mode: " ++ r.llm_mode), prior, false⟩
    | some mode =>
        let e0 := SimulationEngine_new (toSimConfig r mode)
        if initOk then
          ⟨HttpResponse.ok "initialized", some (engineAfterInitialize e0 true), true⟩
        else
          ⟨HttpResponse.httpError 500 "Failed to initialize simulation",
           some (engineAfterInitialize e0 false), true⟩
  else
    ⟨HttpResponse.validationRejected "config validation failed", prior, false⟩

/-- Modelled from the spec: `SnapshotStore.take` substitutes a generated
`tick-<n>-<timestamp>` name when no name is supplied (engine code not
under `src/`; spec section 4.3), writes the artifact and appends the
metadata record. -/
def engine_take_snapshot (e : Engine) (timestamp : String) (name : Option String) :
    String × Engine :=
  let n :=
    match name with
    | none => "tick-" ++ toString e.tickCount ++ "-" ++ timestamp
    | some s => s
  (n, { e with snapshots := e.snapshots ++ [n] })

/-- Result of `/snapshots`: response, engine handle afterwards, and the
name of the file written (none when no filesystem access happened). -/
structure SnapshotResult where
  response : HttpResponse
  engineAfter : Option Engine
  fileWritten : Option String
deriving DecidableEq, Repr

/-- The `/snapshots` endpoint (app.py lines 387-399): pydantic runs
`validate_name` before the endpoint body, so a rejected name causes no
filesystem access and no engine access. -/
def take_snapshot (engine : Option Engine) (reqName : Option String)
    (timestamp : String) : SnapshotResult :=
  match validate_name reqName with
  | Except.error msg => ⟨HttpResponse.validationRejected msg, engine, none⟩
  | Except.ok name =>
      match engine with
      | none => ⟨HttpResponse.httpError 400 "Simulation not initialized", none, none⟩
      | some e =>
          let p := engine_take_snapshot e timestamp name
          ⟨HttpResponse.ok "snapshot_created", some p.2, some p.1⟩

/-- Result of `/stimuli/by-type/...`: the response and whether
`stimuli_manager.get_stimuli_by_type` was actually invoked. -/
structure StimuliQueryResult where
  response : QueryResult
  queriedManager : Bool
deriving DecidableEq, Repr

/-- The `/stimuli/by-type/{stimulus_type}` endpoint (app.py lines
632-671).  The engine/manager presence check and the `StimulusType`
conversion both happen before the manager is queried; `HTTPException`s
raised inside the `try` block are re-wrapped as 500 by the bare
`except Exception`. -/
def get_stimuli_by_type (engine : Option Engine) (stimulusType : String) :
    StimuliQueryResult :=
  match engine with
  | none =>
      ⟨QueryResult.httpError 500 "404: No active simulation or stimuli manager", false⟩
  | some e =>
      if e.hasStimuliManager = false then
        ⟨QueryResult.httpError 500 "404: No active simulation or stimuli manager", false⟩
      else
        match stimulusTypeOfString stimulusType with
        | none =>
            ⟨QueryResult.httpError 500 ("400: Invalid stimulus type: " ++ stimulusType),
             false⟩
        | some _ => ⟨QueryResult.payload ("stimuli:" ++ stimulusType), true⟩

/-- Outcomes of `verify_api_key`: access granted, or an HTTP 401. -/
inductive AuthOutcome
  | allowed
  | unauthorized (detail : String)
deriving DecidableEq, Repr

/-- Parsing of the `REQUIRE_AUTH` environment variable
(auth.py line 17): `getenv("REQUIRE_AUTH", "false").lower() == "true"`. -/
def parse_require_auth (v : Option String) : Bool :=
  pyLower (v.getD "false") == "true"

/-- `verify_api_key` (auth.py lines 20-59).  `apiKey` embeds the
`API_KEY` environment value (`none` when unset); the Python falsiness
test `not API_KEY` is `none` or the empty string.  `credentials` is the
presented bearer token, if any. -/
def verify_api_key (requireAuth : Bool) (apiKey credentials : Option String) :
    AuthOutcome :=
  if requireAuth = false then AuthOutcome.allowed
  else
    match apiKey with
    | none => AuthOutcome.allowed
    | some k =>
        if k = "" then AuthOutcome.allowed
        else
          match credentials with
          | none => AuthOutcome.unauthorized "Missing authentication credentials"
          | some c =>
              if c = k then AuthOutcome.allowed
              else AuthOutcome.unauthorized "Invalid API key"

/-- The error-detail policy shared by the global exception handler and the
initialize endpoint's generic failure branch (app.py lines 226 and 720):
outside production the exception text is surfaced; in production the
constant string replaces it. -/
def errorDetail (environment excMsg : String) : String :=
  if environment ≠ "production" then excMsg else "Internal server error"

/-- The global exception handler (app.py lines 716-724): HTTP 500 with
the environment-dependent detail. -/
def global_exception_handler (environment excMsg : String) : Nat × String :=
  (500, errorDetail environment excMsg)

/-- The generic `except Exception` branch of `/simulation/initialize`
(app.py lines 224-230): HTTP 500 with the environment-dependent detail. -/
def initialize_generic_failure (environment excMsg : String) : Nat × String :=
  (500, errorDetail environment excMsg)

/-- The rational 0.3 (the pydantic default LLM temperature), given in
normal form so that kernel evaluation needs no gcd normalization. -/
def ratZeroPointThree : Rat := ⟨3, 10, by decide, by decide⟩

/-- The pydantic defaults of `SimulationConfigRequest`
(app.py lines 35-48). -/
def defaultConfigRequest : SimulationConfigRequest :=
  ⟨300, some 42, 10000, "mock", "gpt-3.5-turbo", ratZeroPointThree, 100, 50, 100,
   "networkx", "faiss", 20, "snapshots", none⟩

/-- A sample validated configuration, used to build concrete engines. -/
def sampleConfig : SimulationConfig := toSimConfig defaultConfigRequest LLMMode.mock

/-- A concrete engine in the `READY` state. -/
def readyEngine : Engine :=
  ⟨SimulationState.ready, true, true, true, 0, [], [], sampleConfig⟩

/-- A concrete engine in the `RUNNING` state. -/
def runningEngine : Engine :=
  ⟨SimulationState.running, true, true, true, 5, [1, 2, 3, 4, 5], [], sampleConfig⟩

/-- A concrete engine in the `STOPPED` state. -/
def stoppedEngine : Engine :=
  ⟨SimulationState.stopped, true, true, true, 7, [], [], sampleConfig⟩

/-- A concrete engine with no World, scheduler or stimuli manager. -/
def bareEngine : Engine :=
  ⟨SimulationState.uninitialized, false, false, false, 0, [], [], sampleConfig⟩

end Cognisphere

namespace Cognisphere

/-- Evaluation of Python's lower on the literal action `start`. -/
lemma pyLower_start_eq : pyLower "start" = "start" := by decide

/-- C1: `start` from any lifecycle state other than `READY` fails with an
error, launches no background tick loop and causes no state change; from
`READY` it launches the tick loop as a background task and the synchronous
call returns with the engine handle unchanged. -/
theorem C1_start_transition (e : Engine) :
    (e.state ≠ SimulationState.ready →
      control_simulation (some e) "start" =
        ⟨wrapExc 400 "Simulation not ready", false, some e, none⟩) ∧
    (e.state = SimulationState.ready →
      control_simulation (some e) "start" =
        ⟨HttpResponse.ok "started", true, some e, some "run_simulation"⟩) := by
  constructor <;> intro h <;> simp [control_simulation, pyLower_start_eq, h]

/-- C1 witness: the theorem applied at a concrete `STOPPED` engine and a
concrete `READY` engine. -/
theorem C1_start_transition_witness :
    control_simulation (some stoppedEngine) "start" =
      ⟨wrapExc 400 "Simulation not ready", false, some stoppedEngine, none⟩ ∧
    control_simulation (some readyEngine) "start" =
      ⟨HttpResponse.ok "started", true, some readyEngine, some "run_simulation"⟩ :=
  ⟨(C1_start_transition stoppedEngine).1 (by decide),
   (C1_start_transition readyEngine).2 rfl⟩

/-- C2: the control path has no guards for `pause`/`resume`/`stop`/`step`:
`step` while `RUNNING`, and `pause`/`stop`/`resume` from `READY` or
`STOPPED`, are executed rather than rejected with an invalid-transition
error, contradicting the claim. -/
theorem C2_controls_not_guarded :
    control_simulation (some runningEngine) "step" =
      ⟨HttpResponse.ok "stepped", false, some (step_simulation runningEngine),
       some "step_simulation"⟩ ∧
    control_simulation (some readyEngine) "pause" =
      ⟨HttpResponse.ok "paused", false, some (pause_simulation readyEngine),
       some "pause_simulation"⟩ ∧
    control_simulation (some stoppedEngine) "stop" =
      ⟨HttpResponse.ok "stopped", false, some (stop_simulation stoppedEngine),
       some "stop_simulation"⟩ ∧
    control_simulation (some readyEngine) "resume" =
      ⟨HttpResponse.ok "resumed", false, some (resume_simulation readyEngine),
       some "resume_simulation"⟩ :=
  ⟨rfl, rfl, rfl, rfl⟩

/-- C3 counterexample: with the engine handle absent, the agent-data query
returns an HTTP 400 error, not a "not available" sentinel, refuting the
claim as stated. -/
theorem C3_counterexample :
    get_agents none = QueryResult.httpError 400 "Simulation not initialized" ∧
    (get_agents none).isSentinel = false := by decide

/-- C3 amended: every query operation yields a well-formed result in every
lifecycle state: `status` returns a sentinel when the engine is absent, the
remaining queries return a handled HTTP 400 error in that case, queries
with the engine present succeed regardless of the lifecycle state, and
world summary, performance stats and tick history return sentinels when
their subsystem is absent. -/
theorem C3_queries_well_formed (e : Engine) :
    get_simulation_status none = QueryResult.sentinel "not_initialized" ∧
    get_agents none = QueryResult.httpError 400 "Simulation not initialized" ∧
    get_cultural_data none = QueryResult.httpError 400 "Simulation not initialized" ∧
    get_economic_data none = QueryResult.httpError 400 "Simulation not initialized" ∧
    get_network_data none = QueryResult.httpError 400 "Simulation not initialized" ∧
    get_world_summary none = QueryResult.httpError 400 "Simulation not initialized" ∧
    get_performance_stats none = QueryResult.httpError 400 "Simulation not initialized" ∧
    get_simulation_history none = QueryResult.httpError 400 "Simulation not initialized" ∧
    get_simulation_status (some e) = QueryResult.payload "status" ∧
    get_agents (some e) = QueryResult.payload "agents" ∧
    (e.hasWorld = false →
      get_world_summary (some e) = QueryResult.sentinel "World not initialized") ∧
    (e.hasScheduler = false →
      get_performance_stats (some e) = QueryResult.sentinel "Scheduler not initialized") ∧
    (e.hasWorld = false →
      get_simulation_history (some e) = QueryResult.sentinel "empty_history") := by
  refine ⟨rfl, rfl, rfl, rfl, rfl, rfl, rfl, rfl, rfl, rfl, ?_, ?_, ?_⟩ <;>
    intro h <;>
    simp [get_world_summary, get_performance_stats, get_simulation_history, h]

/-- C3 amended witness: the subsystem-absent clauses applied at a concrete
engine lacking World, scheduler and stimuli manager. -/
theorem C3_queries_well_formed_witness :
    get_world_summary (some bareEngine) = QueryResult.sentinel "World not initialized" ∧
    get_performance_stats (some bareEngine) =
      QueryResult.sentinel "Scheduler not initialized" ∧
    get_simulation_history (some bareEngine) = QueryResult.sentinel "empty_history" :=
  ⟨(C3_queries_well_formed bareEngine).2.2.2.2.2.2.2.2.2.2.1 rfl,
   (C3_queries_well_formed bareEngine).2.2.2.2.2.2.2.2.2.2.2.1 rfl,
   (C3_queries_well_formed bareEngine).2.2.2.2.2.2.2.2.2.2.2.2 rfl⟩

/-- C4: an initialize request violating any documented numeric parameter
bound is rejected by request validation before the endpoint body runs: the
process-wide engine handle is unchanged and no engine is constructed. -/
theorem C4_bounds_rejected (prior : Option Engine) (r : SimulationConfigRequest)
    (initOk : Bool)
    (h : r.num_agents < 1 ∨ 10000 < r.num_agents ∨
      (∃ s, r.seed = some s ∧ s < 0) ∨
      r.max_ticks < 1 ∨ 1000000 < r.max_ticks ∨
      r.tick_duration_ms < 1 ∨ 10000 < r.tick_duration_ms ∨
      r.agents_per_tick < 1 ∨ 1000 < r.agents_per_tick ∨
      r.interactions_per_tick < 1 ∨ 10000 < r.interactions_per_tick ∨
      r.snapshot_frequency < 1 ∨ 1000 < r.snapshot_frequency) :
    initialize_simulation prior r initOk =
      ⟨HttpResponse.validationRejected "config validation failed", prior, false⟩ := by
  have hb : ¬ ConfigBoundsOk r := by
    intro hc
    obtain ⟨h1, h2, h3, h4, h5, h6, h7, h8, h9, h10, h11, h12, h13, h14, h15, h16,
      h17⟩ := hc
    rcases h with h | h | h | h | h | h | h | h | h | h | h | h | h
    · omega
    · omega
    · obtain ⟨s, hs, hneg⟩ := h
      rw [hs] at h3
      simp only [Option.getD_some] at h3
      omega
    all_goals omega
  have hv : configRequestValid r = false := by
    simp [configRequestValid, decide_eq_false hb]
  simp [initialize_simulation, hv]

/-- C4 witness: the theorem applied at a request with a zero population. -/
theorem C4_bounds_rejected_witness :
    initialize_simulation none { defaultConfigRequest with num_agents := 0 } true =
      ⟨HttpResponse.validationRejected "config validation failed", none, false⟩ :=
  C4_bounds_rejected none { defaultConfigRequest with num_agents := 0 } true
    (Or.inl (by decide))

/-- C5: a non-empty snapshot name containing `..`, `/` or a backslash is
rejected by request validation with the engine handle untouched and no file
written, while an unspecified name is accepted and a generated
tick-and-timestamp name is substituted. -/
theorem C5_snapshot_name (engine : Option Engine) (e : Engine) (s ts : String)
    (hne : s ≠ "")
    (hbad : (strContains s ".." || strContains s "/" || strContains s "\\") = true) :
    (∃ msg, take_snapshot engine (some s) ts =
      ⟨HttpResponse.validationRejected msg, engine, none⟩) ∧
    take_snapshot (some e) none ts =
      ⟨HttpResponse.ok "snapshot_created",
       some { e with snapshots :=
         e.snapshots ++ ["tick-" ++ toString e.tickCount ++ "-" ++ ts] },
       some ("tick-" ++ toString e.tickCount ++ "-" ++ ts)⟩ := by
  constructor
  · by_cases hlen : 100 < s.length
    · exact ⟨"name too long", by simp [take_snapshot, validate_name, hlen]⟩
    · exact ⟨"Invalid snapshot name",
        by simp [take_snapshot, validate_name, hlen, hne, hbad]⟩
  · rfl

/-- C5 witness: the theorem applied at the traversal name `../etc` and at an
absent name on a concrete `READY` engine. -/
theorem C5_snapshot_name_witness :
    (∃ msg, take_snapshot (some readyEngine) (some "../etc") "TS" =
      ⟨HttpResponse.validationRejected msg, some readyEngine, none⟩) ∧
    take_snapshot (some readyEngine) none "TS" =
      ⟨HttpResponse.ok "snapshot_created",
       some { readyEngine with snapshots :=
         readyEngine.snapshots ++
           ["tick-" ++ toString readyEngine.tickCount ++ "-" ++ "TS"] },
       some ("tick-" ++ toString readyEngine.tickCount ++ "-" ++ "TS")⟩ :=
  C5_snapshot_name (some readyEngine) readyEngine "../etc" "TS" (by decide) (by decide)

/-- A request whose snapshot directory contains a backslash but no `..` and
no leading `/`. -/
def backslashDirRequest : SimulationConfigRequest :=
  { defaultConfigRequest with snapshot_directory := "snap\\dir" }

/-- C6 counterexample: an initialize request whose snapshot directory
contains a backslash passes validation and an engine is constructed,
refuting the claim that backslash-containing paths are rejected at the
boundary. -/
theorem C6_counterexample :
    strContains backslashDirRequest.snapshot_directory "\\" = true ∧
    (initialize_simulation none backslashDirRequest true).response =
      HttpResponse.ok "initialized" ∧
    (initialize_simulation none backslashDirRequest true).constructed = true := by
  decide

/-- C6 amended: a snapshot directory or stimuli file path containing `..`
or beginning with `/` is rejected by request validation before any state
mutation; backslashes alone are not checked for these two fields. -/
theorem C6_path_traversal_rejected (prior : Option Engine)
    (r : SimulationConfigRequest) (initOk : Bool)
    (h : strContains r.snapshot_directory ".." = true ∨
      strStartsWith r.snapshot_directory "/" = true ∨
      (∃ v, r.stimuli_file = some v ∧ v ≠ "" ∧
        (strContains v ".." = true ∨ strStartsWith v "/" = true))) :
    initialize_simulation prior r initOk =
      ⟨HttpResponse.validationRejected "config validation failed", prior, false⟩ := by
  have hv : configRequestValid r = false := by
    rcases h with h | h | ⟨v, hvf, hne, hbad⟩
    · simp [configRequestValid, snapshotDirectoryOk, h]
    · simp [configRequestValid, snapshotDirectoryOk, h]
    · rcases hbad with hb | hb <;>
        simp [configRequestValid, stimuliFileOk, hvf, hne, hb]
  simp [initialize_simulation, hv]

/-- C6 amended witness: the theorem applied at a request whose snapshot
directory contains a traversal sequence. -/
theorem C6_path_traversal_rejected_witness :
    initialize_simulation none { defaultConfigRequest with snapshot_directory := "../x" }
      true =
      ⟨HttpResponse.validationRejected "config validation failed", none, false⟩ :=
  C6_path_traversal_rejected none
    { defaultConfigRequest with snapshot_directory := "../x" } true (Or.inl (by decide))

/-- C7: string enum parameters are validated against their closed sets at
the boundary: a lifecycle action outside the closed set (compared
case-insensitively) is rejected by request validation without reaching the
engine, valid actions are normalized to lowercase, an unknown stimulus
type is rejected without querying the stimuli manager, and an invalid LLM
mode is rejected without constructing an engine. -/
theorem C7_closed_enums (eng prior : Option Engine) (raw t : String)
    (r : SimulationConfigRequest) (initOk : Bool) :
    (allowedActions.contains (pyLower raw) = false →
      controlEndpoint eng raw =
        ⟨HttpResponse.validationRejected
          "Action must be one of: start, pause, resume, stop, step", false, eng, none⟩) ∧
    (allowedActions.contains (pyLower raw) = true →
      validate_action raw = Except.ok (pyLower raw)) ∧
    (stimulusTypeOfString t = none →
      (get_stimuli_by_type eng t).queriedManager = false) ∧
    (configRequestValid r = true → llmModeOfString r.llm_mode = none →
      initialize_simulation prior r initOk =
        ⟨HttpResponse.httpError 400 ("Invalid LLM mode: " ++ r.llm_mode), prior,
         false⟩) := by
  refine ⟨?_, ?_, ?_, ?_⟩
  · intro h
    have h' : pyLower raw ∉ allowedActions := by simpa using h
    simp [controlEndpoint, validate_action, h']
  · intro h
    have h' : pyLower raw ∈ allowedActions := by simpa using h
    simp [validate_action, h']
  · intro h
    match eng with
    | none => rfl
    | some e =>
        by_cases hm : e.hasStimuliManager = false
        · simp [get_stimuli_by_type, hm]
        · simp [get_stimuli_by_type, hm, h]
  · intro h1 h2
    simp [initialize_simulation, h1, h2]

/-- C7 witness: the theorem applied at the unknown action `fly`, the
mixed-case action `START`, the unknown stimulus type `weird` and the
invalid LLM mode `gpt4`. -/
theorem C7_closed_enums_witness :
    controlEndpoint (some readyEngine) "fly" =
      ⟨HttpResponse.validationRejected
        "Action must be one of: start, pause, resume, stop, step", false,
       some readyEngine, none⟩ ∧
    validate_action "START" = Except.ok (pyLower "START") ∧
    (get_stimuli_by_type (some readyEngine) "weird").queriedManager = false ∧
    initialize_simulation none { defaultConfigRequest with llm_mode := "gpt4" } true =
      ⟨HttpResponse.httpError 400 ("Invalid LLM mode: " ++ "gpt4"), none, false⟩ := by
  have h1 := C7_closed_enums (some readyEngine) none "fly" "weird"
    { defaultConfigRequest with llm_mode := "gpt4" } true
  have h2 := C7_closed_enums (some readyEngine) none "START" "weird"
    defaultConfigRequest true
  exact ⟨h1.1 (by decide), h2.2.1 (by decide), h1.2.2.1 (by decide),
    h1.2.2.2 (by decide) (by decide)⟩

/-- C8: `verify_api_key` allows access exactly when authentication is not
required, or no API key is configured (unset or empty), or the presented
bearer token equals the configured key; every other outcome is one of the
two documented HTTP 401 rejections, and no further outcome exists. -/
theorem C8_verify_api_key_complete (requireAuth : Bool)
    (apiKey credentials : Option String) :
    (verify_api_key requireAuth apiKey credentials = AuthOutcome.allowed ↔
      (requireAuth = false ∨ apiKey = none ∨ apiKey = some "" ∨
        ∃ k, apiKey = some k ∧ credentials = some k)) ∧
    (verify_api_key requireAuth apiKey credentials = AuthOutcome.allowed ∨
      verify_api_key requireAuth apiKey credentials =
        AuthOutcome.unauthorized "Missing authentication credentials" ∨
      verify_api_key requireAuth apiKey credentials =
        AuthOutcome.unauthorized "Invalid API key") := by
  cases requireAuth with
  | false => simp [verify_api_key]
  | true =>
      cases apiKey with
      | none => simp [verify_api_key]
      | some k =>
          by_cases hk : k = ""
          · subst hk
            simp [verify_api_key]
          · cases credentials with
            | none => simp [verify_api_key, hk]
            | some c =>
                by_cases hc : c = k
                · subst hc
                  simp [verify_api_key, hk]
                · simp [verify_api_key, hk, hc]

/-- C9: when the request validates and the LLM mode is valid but the new
engine's `initialize()` reports failure, the endpoint returns an error
while the process-wide handle has already been replaced by the newly
constructed engine; the result is independent of the prior engine, which
is neither retained nor restored. -/
theorem C9_failed_init_replaces_engine (prior : Option Engine)
    (r : SimulationConfigRequest) (m : LLMMode)
    (hv : configRequestValid r = true) (hm : llmModeOfString r.llm_mode = some m) :
    initialize_simulation prior r false =
      ⟨HttpResponse.httpError 500 "Failed to initialize simulation",
       some (engineAfterInitialize (SimulationEngine_new (toSimConfig r m)) false),
       true⟩ ∧
    (initialize_simulation prior r false).engineAfter =
      (initialize_simulation none r false).engineAfter := by
  constructor
  · simp [initialize_simulation, hv, hm]
  · simp [initialize_simulation, hv, hm]

/-- C9 witness: the theorem applied with a prior `READY` engine and the
default request. -/
theorem C9_failed_init_replaces_engine_witness :
    initialize_simulation (some readyEngine) defaultConfigRequest false =
      ⟨HttpResponse.httpError 500 "Failed to initialize simulation",
       some (engineAfterInitialize
         (SimulationEngine_new (toSimConfig defaultConfigRequest LLMMode.mock)) false),
       true⟩ ∧
    (initialize_simulation (some readyEngine) defaultConfigRequest false).engineAfter =
      (initialize_simulation none defaultConfigRequest false).engineAfter :=
  C9_failed_init_replaces_engine (some readyEngine) defaultConfigRequest LLMMode.mock
    (by decide) (by decide)

/-- C10: in production the 500 detail produced by the global exception
handler and by the initialize endpoint's generic failure branch is the
constant `Internal server error`, independent of the underlying exception;
in any other environment the exception's message is returned verbatim. -/
theorem C10_production_masks_details (e1 e2 : String) :
    global_exception_handler "production" e1 = global_exception_handler "production" e2 ∧
    global_exception_handler "production" e1 = (500, "Internal server error") ∧
    initialize_generic_failure "production" e1 = (500, "Internal server error") ∧
    (∀ env e, env ≠ "production" →
      global_exception_handler env e = (500, e) ∧
      initialize_generic_failure env e = (500, e)) := by
  refine ⟨?_, ?_, ?_, ?_⟩
  · simp [global_exception_handler, errorDetail]
  · simp [global_exception_handler, errorDetail]
  · simp [initialize_generic_failure, errorDetail]
  · intro env e h
    simp [global_exception_handler, initialize_generic_failure, errorDetail, h]

/-- C10 witness: the environment-dependent clause applied at the
development environment and a concrete exception message. -/
theorem C10_production_masks_details_witness :
    global_exception_handler "development" "boom" = (500, "boom") ∧
    initialize_generic_failure "development" "boom" = (500, "boom") :=
  (C10_production_masks_details "a" "b").2.2.2 "development" "boom" (by decide)

end Cognisphere
